import Mathlib

/-!
Verification of the BoxChamp live-state extraction and rule-driven action
engine (BoxChamp.py) against its natural-language specification.

The remote process memory is modelled as a structure of deterministic typed
read functions returning Option values: a read that raises a Python
exception is modelled as Option.none, a read that succeeds as some value.
Python numbers are modelled exactly: ints as Int or Nat (reads of unsigned
fields yield Nat, reads of signed 4-byte fields yield Int) and the float
arithmetic of the percent computation as exact rational arithmetic, with
the Python built-in round (banker rounding, half to even) made explicit.
-/

attribute [local semireducible] Rat.mul Rat.add Rat.sub Rat.inv Rat.ofScientific

namespace BoxChamp

/-! ### Memory-layout constants, from the source -/

def CUR_MGR_POINTER : Nat := 0x00C79CE0
def CUR_MGR_OFFSET : Nat := 0x2ED0
def FIRST_OBJECT_OFFSET : Nat := 0xAC
def NEXT_OBJECT_OFFSET : Nat := 0x3C
def LOCAL_GUID_OFFSET : Nat := 0xC0
def OBJECT_GUID_OFFSET : Nat := 0x30
def M_STORAGE_OFFSET : Nat := 0x8
def TARGET_GUID_STATIC : Nat := 0x00BD07B0
def COMBO_POINTS_STATIC : Nat := 0x00BD084D

def UNIT_FIELD_HEALTH : Nat := 0x18 * 4
def UNIT_FIELD_MAXHEALTH : Nat := 0x20 * 4
def UNIT_FIELD_POWER1 : Nat := 0x19 * 4
def UNIT_FIELD_MAXPOWER1 : Nat := 0x21 * 4
def UNIT_FIELD_LEVEL : Nat := 0x36 * 4

def UNIT_NAME_1 : Nat := 0x964
def UNIT_NAME_2 : Nat := 0x5C

/-! ### Python round and the guarded percent formula -/

/-- Floor of a rational, computed on its reduced numerator and
denominator (the denominator is positive, so flooring division of the
numerator by the denominator is the floor). -/
def ratFloor (q : ℚ) : ℤ := q.num.fdiv (q.den : ℤ)

/-- Python built-in round on an exact rational: round half to even. -/
def pyRound (q : ℚ) : ℤ :=
  let f : ℤ := ratFloor q
  let r : ℚ := q - (f : ℚ)
  if r < 1/2 then f
  else if 1/2 < r then f + 1
  else if f % 2 = 0 then f else f + 1

/-- The percent computation of get_combat_stats: round((v / mx) * 100)
computed only under the guard 0 < mx, and 0 otherwise, exactly as in the
source (lines 430-433 and 445-446). -/
def pct (v mx : ℤ) : ℤ :=
  if 0 < mx then pyRound (((v : ℚ) / (mx : ℚ)) * 100) else 0

/-! ### The remote memory model -/

/-- Deterministic model of the pymem read primitives. Each read either
raises (Option.none) or returns a value (some). -/
structure Mem where
  readUInt : Nat → Option Nat
  readULongLong : Nat → Option Nat
  readInt : Nat → Option Int
  readUChar : Nat → Option Nat
  readString : Nat → Option String

/-! ### Object manager resolution and the GUID search -/

/-- MemoryReader._get_object_manager_base with the cached base passed
explicitly (0 means unresolved). Returns the resolved base, which is also
the new cache value. On any read failure the result is 0. -/
def getObjectManagerBase (m : Mem) (cache : Nat) : Nat :=
  if cache ≠ 0 then cache
  else
    match m.readUInt CUR_MGR_POINTER with
    | Option.none => 0
    | some cc =>
      if cc = 0 then 0
      else
        match m.readUInt (cc + CUR_MGR_OFFSET) with
        | Option.none => 0
        | some om => om

/-- The body of the bounded for-loop of _find_object_base_by_guid: walk the
next-pointer chain for at most fuel iterations; a failed read inside the
loop breaks out (returns 0), a null pointer breaks out (returns 0), a GUID
match returns the current node address. -/
def findLoop (m : Mem) (guid : Nat) : Nat → Nat → Nat
  | _, 0 => 0
  | cur, fuel + 1 =>
    if cur = 0 then 0
    else
      match m.readULongLong (cur + OBJECT_GUID_OFFSET) with
      | Option.none => 0
      | some g =>
        if g = guid then cur
        else
          match m.readUInt (cur + NEXT_OBJECT_OFFSET) with
          | Option.none => 0
          | some nxt => findLoop m guid nxt fuel

/-- Number of loop iterations findLoop executes before returning. -/
def findLoopSteps (m : Mem) (guid : Nat) : Nat → Nat → Nat
  | _, 0 => 0
  | cur, fuel + 1 =>
    if cur = 0 then 0
    else
      match m.readULongLong (cur + OBJECT_GUID_OFFSET) with
      | Option.none => 1
      | some g =>
        if g = guid then 1
        else
          match m.readUInt (cur + NEXT_OBJECT_OFFSET) with
          | Option.none => 1
          | some nxt => 1 + findLoopSteps m guid nxt fuel

/-- MemoryReader._find_object_base_by_guid. The read of the first-object
field sits outside any try block in the source, so its failure raises to
the caller: that case is Option.none here. All other outcomes return an
address (some), with 0 standing for not found. -/
def findObjectBaseByGuidC (m : Mem) (cache : Nat) (guid : Nat) : Option Nat :=
  let objMgr := getObjectManagerBase m cache
  if objMgr = 0 ∨ guid = 0 then some 0
  else
    match m.readUInt (objMgr + FIRST_OBJECT_OFFSET) with
    | Option.none => Option.none
    | some cur => some (findLoop m guid cur 4096)

/-- Loop iterations of one _find_object_base_by_guid call. -/
def findCallSteps (m : Mem) (cache : Nat) (guid : Nat) : Nat :=
  let objMgr := getObjectManagerBase m cache
  if objMgr = 0 ∨ guid = 0 then 0
  else
    match m.readUInt (objMgr + FIRST_OBJECT_OFFSET) with
    | Option.none => 0
    | some cur => findLoopSteps m guid cur 4096

/-! ### The stats snapshot -/

/-- The stats dictionary of get_combat_stats: its fixed key set, exactly
the fourteen keys of the dict literal at lines 403-408. -/
structure Stats where
  player_hp : Int
  player_max_hp : Int
  player_mp : Int
  player_max_mp : Int
  player_hp_percent : Int
  player_mp_percent : Int
  player_level : Int
  target_hp : Int
  target_max_hp : Int
  target_hp_percent : Int
  target_level : Int
  has_target : Bool
  target_name : String
  combo_points : Int
deriving DecidableEq

/-- Values read along the player-side path of get_combat_stats, in source
order: object manager, combo points, then the five descriptor fields. -/
structure PlayerVals where
  objMgr : Nat
  combo : Nat
  hp : Int
  maxHp : Int
  mp : Int
  maxMp : Int
  level : Int
deriving DecidableEq

/-- Values produced by the target-side path of get_combat_stats. -/
structure TargetVals where
  hasTarget : Bool
  hp : Int
  maxHp : Int
  level : Int
  name : String
deriving DecidableEq

/-- The two-level name-pointer chain (lines 447-454), wrapped in its own
try block in the source: every failure or null pointer leaves the name
empty. -/
def readTargetName (m : Mem) (targetBase : Nat) : String :=
  match m.readUInt (targetBase + UNIT_NAME_1) with
  | Option.none => ""
  | some p1 =>
    if p1 = 0 then ""
    else
      match m.readUInt (p1 + UNIT_NAME_2) with
      | Option.none => ""
      | some p2 =>
        if p2 = 0 then ""
        else
          match m.readString p2 with
          | Option.none => ""
          | some s => s

/-- The player-side path of get_combat_stats (lines 410-428): object
manager, combo points, local player GUID, player object, descriptor, five
stat reads. Any failure or null check here aborts the whole snapshot
(Option.none, the source returns None). The cached object manager base is
set to the resolved value once resolution succeeds, so the nested
_find_object_base_by_guid call sees it as the cache. -/
def playerPart (m : Mem) (cache : Nat) : Option PlayerVals :=
  let om := getObjectManagerBase m cache
  if om = 0 then Option.none
  else
    match m.readUChar COMBO_POINTS_STATIC with
    | Option.none => Option.none
    | some combo =>
      match m.readULongLong (om + LOCAL_GUID_OFFSET) with
      | Option.none => Option.none
      | some pg =>
        if pg = 0 then Option.none
        else
          match findObjectBaseByGuidC m om pg with
          | Option.none => Option.none
          | some pb =>
            if pb = 0 then Option.none
            else
              match m.readUInt (pb + M_STORAGE_OFFSET) with
              | Option.none => Option.none
              | some dp =>
                if dp = 0 then Option.none
                else
                  match m.readInt (dp + UNIT_FIELD_HEALTH),
                        m.readInt (dp + UNIT_FIELD_MAXHEALTH),
                        m.readInt (dp + UNIT_FIELD_POWER1),
                        m.readInt (dp + UNIT_FIELD_MAXPOWER1),
                        m.readInt (dp + UNIT_FIELD_LEVEL) with
                  | some hp, some mhp, some mp, some mmp, some lvl =>
                      some ⟨om, combo, hp, mhp, mp, mmp, lvl⟩
                  | _, _, _, _, _ => Option.none

/-- The target-side path of get_combat_stats (lines 435-456). The reads of
the target GUID, the target descriptor pointer and the target stat fields
sit inside the outer try block only, so a raising read there aborts the
whole snapshot (Option.none); null results degrade to zero stats. The name
chain has its own try block and never aborts. -/
def targetPart (m : Mem) (om : Nat) : Option TargetVals :=
  match m.readULongLong TARGET_GUID_STATIC with
  | Option.none => Option.none
  | some tg =>
    if tg = 0 then some ⟨false, 0, 0, 0, ""⟩
    else
      match findObjectBaseByGuidC m om tg with
      | Option.none => Option.none
      | some tb =>
        if tb = 0 then some ⟨true, 0, 0, 0, ""⟩
        else
          match m.readUInt (tb + M_STORAGE_OFFSET) with
          | Option.none => Option.none
          | some td =>
            if td = 0 then some ⟨true, 0, 0, 0, readTargetName m tb⟩
            else
              match m.readInt (td + UNIT_FIELD_HEALTH),
                    m.readInt (td + UNIT_FIELD_MAXHEALTH),
                    m.readInt (td + UNIT_FIELD_LEVEL) with
              | some th, some tmh, some tl =>
                  some ⟨true, th, tmh, tl, readTargetName m tb⟩
              | _, _, _ => Option.none

/-- Assemble the stats dictionary from the values read; the percent keys
are computed from the stored values exactly as at lines 430-433 and
445-446 (keys not successfully read keep their zero/false/empty
initialisation, which the zero values of TargetVals carry). -/
def mkStats (pv : PlayerVals) (tv : TargetVals) : Stats :=
  { player_hp := pv.hp
    player_max_hp := pv.maxHp
    player_mp := pv.mp
    player_max_mp := pv.maxMp
    player_hp_percent := pct pv.hp pv.maxHp
    player_mp_percent := pct pv.mp pv.maxMp
    player_level := pv.level
    target_hp := tv.hp
    target_max_hp := tv.maxHp
    target_hp_percent := pct tv.hp tv.maxHp
    target_level := tv.level
    has_target := tv.hasTarget
    target_name := tv.name
    combo_points := (pv.combo : Int) }

/-- MemoryReader.get_combat_stats (lines 402-461): player path is fatal on
failure, target path aborts only on raising reads, everything else
degrades into the initialised dict values. -/
def getCombatStats (m : Mem) (cache : Nat) : Option Stats :=
  match playerPart m cache with
  | Option.none => Option.none
  | some pv => (targetPart m pv.objMgr).map (mkStats pv)

/-! ### Python values and the condition evaluator -/

/-- The dynamic values a condition literal or a stats entry can take:
ints, floats (exact rationals), strings, bools and None. -/
inductive PyVal where
  | vInt (i : Int)
  | vRat (q : ℚ)
  | vStr (s : String)
  | vBool (b : Bool)
  | vNone
deriving DecidableEq

/-- The comparison condition.value > 0 at line 1151. Comparing a string or
None with an int raises TypeError in Python, which nothing in
_check_condition catches: Option.none models that raise. -/
def pyGtZero : PyVal → Option Bool
  | PyVal.vInt i => some (decide (0 < i))
  | PyVal.vRat q => some (decide (0 < q))
  | PyVal.vBool b => some b
  | PyVal.vStr _ => Option.none
  | PyVal.vNone => Option.none

/-- Python str.lower restricted to the character-wise ASCII lowering of
Char.toLower, written out over the character list. -/
def strLower (s : String) : String := String.mk (s.data.map Char.toLower)

/-- Strip leading and trailing whitespace from a character list, the
str.strip that float() applies to its argument. -/
def trimChars (cs : List Char) : List Char :=
  ((cs.dropWhile Char.isWhitespace).reverse.dropWhile Char.isWhitespace).reverse

/-- Digit-string value, Option.none when a non-digit occurs. -/
def digitsVal (cs : List Char) : Option Nat :=
  cs.foldl
    (fun acc c =>
      match acc with
      | Option.none => Option.none
      | some n => if c.isDigit then some (n * 10 + (c.toNat - 48)) else Option.none)
    (some 0)

/-- Modelled float() on a string restricted to plain decimal literals:
optional sign, digits, optional fractional part. Exponents and the
inf/nan spellings of the Python built-in are out of scope of every claim
and parse as failures here. -/
def strToRat (s : String) : Option ℚ :=
  let cs := trimChars s.data
  let signed : Bool × List Char :=
    match cs with
    | '-' :: rest => (true, rest)
    | '+' :: rest => (false, rest)
    | _ => (false, cs)
  let neg := signed.1
  let body := signed.2
  let intPart := body.takeWhile Char.isDigit
  let rest := body.dropWhile Char.isDigit
  let mag : Option ℚ :=
    match rest with
    | [] =>
      if intPart.isEmpty then Option.none
      else (digitsVal intPart).map (fun n => (n : ℚ))
    | '.' :: frac =>
      if intPart.isEmpty ∧ frac.isEmpty then Option.none
      else
        match digitsVal intPart, digitsVal frac with
        | some n, some f => some ((n : ℚ) + (f : ℚ) / ((10 : ℚ) ^ frac.length))
        | _, _ => Option.none
    | _ => Option.none
  mag.map (fun q => if neg then -q else q)

/-- float(condition.value) at line 1185: ints, floats and bools convert,
numeric strings parse, everything else raises ValueError or TypeError,
which the surrounding except clause turns into False. -/
def pyToFloat : PyVal → Option ℚ
  | PyVal.vInt i => some (i : ℚ)
  | PyVal.vRat q => some q
  | PyVal.vBool b => some (if b then 1 else 0)
  | PyVal.vStr s => strToRat s
  | PyVal.vNone => Option.none

/-- Numeric view of a stats entry for the final comparison at line 1189;
a non-numeric entry would raise (Option.none), which never happens for
the keys that reach that line. -/
def pyNumOf : PyVal → Option ℚ
  | PyVal.vInt i => some (i : ℚ)
  | PyVal.vRat q => some q
  | PyVal.vBool b => some (if b then 1 else 0)
  | _ => Option.none

/-- str() of a dynamic value, used by the target_name branch. -/
def pyStr : PyVal → String
  | PyVal.vStr s => s
  | PyVal.vInt i => toString i
  | PyVal.vRat q => toString q
  | PyVal.vBool b => if b then "True" else "False"
  | PyVal.vNone => "None"

/-- The boolean view of the has_target entry (its value in the stats dict
is always a bool). -/
def pyAsBool : PyVal → Bool
  | PyVal.vBool b => b
  | _ => false

/-- stats.get(key): lookup in the fixed-key dict built by
get_combat_stats. Exactly the fourteen dict keys are present; any other
key, in particular target_is_own_character, yields Option.none. -/
def statsGet (s : Stats) (key : String) : Option PyVal :=
  if key = "player_hp" then some (PyVal.vInt s.player_hp)
  else if key = "player_max_hp" then some (PyVal.vInt s.player_max_hp)
  else if key = "player_mp" then some (PyVal.vInt s.player_mp)
  else if key = "player_max_mp" then some (PyVal.vInt s.player_max_mp)
  else if key = "player_hp_percent" then some (PyVal.vInt s.player_hp_percent)
  else if key = "player_mp_percent" then some (PyVal.vInt s.player_mp_percent)
  else if key = "player_level" then some (PyVal.vInt s.player_level)
  else if key = "target_hp" then some (PyVal.vInt s.target_hp)
  else if key = "target_max_hp" then some (PyVal.vInt s.target_max_hp)
  else if key = "target_hp_percent" then some (PyVal.vInt s.target_hp_percent)
  else if key = "target_level" then some (PyVal.vInt s.target_level)
  else if key = "has_target" then some (PyVal.vBool s.has_target)
  else if key = "target_name" then some (PyVal.vStr s.target_name)
  else if key = "combo_points" then some (PyVal.vInt s.combo_points)
  else Option.none

/-- The dict-literal keys of get_combat_stats, in source order. -/
def snapshotKeys : List String :=
  ["player_hp", "player_max_hp", "player_mp", "player_max_mp",
   "player_hp_percent", "player_mp_percent", "player_level",
   "target_hp", "target_max_hp", "target_hp_percent", "target_level",
   "has_target", "target_name", "combo_points"]

/-- VALID_STATS, the closed list of statistic kinds the configuration
offers (lines 156-160). -/
def VALID_STATS : List String :=
  ["player_hp_percent", "player_mp_percent", "target_hp_percent",
   "has_target", "target_name", "combo_points", "player_level",
   "target_level", "target_is_own_character"]

/-- A rotation condition: statistic kind, comparison operator, literal. -/
structure Condition where
  stat : String
  operator : String
  value : PyVal
deriving DecidableEq

def VALID_OPERATORS : List String := ["<", ">", "==", "!=", "<=", ">="]

/-- The comparison dispatched through op_map at lines 1176-1180. -/
def numCompare (op : String) (a b : ℚ) : Bool :=
  if op = "<" then decide (a < b)
  else if op = ">" then decide (b < a)
  else if op = "==" then decide (a = b)
  else if op = "!=" then decide (a ≠ b)
  else if op = "<=" then decide (a ≤ b)
  else decide (b ≤ a)

/-- BoxChampController._check_condition (lines 1146-1189). slotNames is
the list of configured slot character names; the evaluator lowers the
non-empty ones into the own-character set exactly as at line 1156. The
result is Option.none when evaluation raises (the comparison of a string
or None literal with 0 in the boolean-statistic branch), and some b when
it returns b. -/
def checkCondition (slotNames : List String) (c : Condition) (s : Stats) : Option Bool :=
  match statsGet s c.stat with
  | Option.none => some false
  | some statVal =>
    if c.stat = "has_target" ∨ c.stat = "target_is_own_character" then
      match pyGtZero c.value with
      | Option.none => Option.none
      | some expected =>
        let isTrue : Bool :=
          if c.stat = "has_target" then pyAsBool statVal
          else
            let ownNames := (slotNames.filter (fun n => n ≠ "")).map strLower
            let targetName :=
              strLower
                (match statsGet s "target_name" with
                 | some (PyVal.vStr t) => t
                 | _ => "")
            if targetName ≠ "" then ownNames.contains targetName else false
        if c.operator = "==" then some (isTrue == expected)
        else if c.operator = "!=" then some (isTrue != expected)
        else some false
    else if c.stat = "target_name" then
      let a := strLower (pyStr statVal)
      let b := strLower (pyStr c.value)
      if c.operator = "==" then some (a == b)
      else if c.operator = "!=" then some (a != b)
      else some false
    else
      if ¬ (c.operator ∈ VALID_OPERATORS) then some false
      else
        match pyToFloat c.value with
        | Option.none => some false
        | some q =>
          match pyNumOf statVal with
          | Option.none => Option.none
          | some a => some (numCompare c.operator a q)

/-! ### Rotation rules and the scheduler tick -/

/-- A rotation rule: key sequence plus conditions (implicit AND). -/
structure RotationRule where
  keys_to_press : List String
  conditions : List Condition
deriving DecidableEq

/-- A combat rotation: ordered rules plus the poll interval in seconds. -/
structure CombatRotation where
  name : String
  rules : List RotationRule
  loop_interval : ℚ
deriving DecidableEq

/-- all(check_condition(cond, stats) for cond in rule.conditions) at line
1217: short-circuits on the first False, propagates a raise
(Option.none). -/
def condAll (slotNames : List String) (conds : List Condition) (s : Stats) : Option Bool :=
  match conds with
  | [] => some true
  | c :: rest =>
    match checkCondition slotNames c s with
    | Option.none => Option.none
    | some false => some false
    | some true => condAll slotNames rest s

/-- The per-client rule scan of one scheduler tick (lines 1216-1226):
rules top-down, the first rule whose conditions all evaluate true has its
key sequence dispatched and the scan breaks. Outer Option.none models a
raise during evaluation; the inner option is the dispatched key sequence
(Option.none when no rule fired). -/
def tickFire (slotNames : List String) (rules : List RotationRule) (s : Stats) :
    Option (Option (List String)) :=
  match rules with
  | [] => some Option.none
  | r :: rest =>
    match condAll slotNames r.conditions s with
    | Option.none => Option.none
    | some true => some (some r.keys_to_press)
    | some false => tickFire slotNames rest s

/-- One scheduler tick for one active client (lines 1207-1226): skip
unless the elapsed time since the recorded last fire reaches the rotation
interval; skip when no snapshot; otherwise scan the rules. Returns the
dispatched key sequence (if any) and the new last-fire timestamp;
Option.none models a raise during condition evaluation. -/
def clientTick (slotNames : List String) (rot : CombatRotation)
    (stats : Option Stats) (lastFire t : ℚ) : Option (Option (List String) × ℚ) :=
  if t - lastFire < rot.loop_interval then some (Option.none, lastFire)
  else
    match stats with
    | Option.none => some (Option.none, lastFire)
    | some st =>
      match tickFire slotNames rot.rules st with
      | Option.none => Option.none
      | some Option.none => some (Option.none, lastFire)
      | some (some keys) => some (some keys, t)

/-- Run clientTick over a sequence of ticks, each given as its wall-clock
time and the snapshot obtained that tick; collect the times at which a
rule fired. A raise stops the engine thread. -/
def runTicks (slotNames : List String) (rot : CombatRotation) :
    ℚ → List (ℚ × Option Stats) → List ℚ
  | _, [] => []
  | lf, (t, st) :: rest =>
    match clientTick slotNames rot st lf t with
    | Option.none => []
    | some (Option.none, lf2) => runTicks slotNames rot lf2 rest
    | some (some _, lf2) => t :: runTicks slotNames rot lf2 rest

/-- Consecutive elements at least T apart. -/
def spaced (T : ℚ) : List ℚ → Bool
  | a :: b :: rest => decide (a + T ≤ b) && spaced T (b :: rest)
  | _ => true

/-! ### Target-policy resolution -/

/-- The non-main handle list with its fallback, the Python expression
[h for h in self.hwnds if h != self.main_hwnd] or self.hwnds[:1]
(lines 1061 and 1073). -/
def rrArr (hwnds : List Nat) (mainHwnd : Option Nat) : List Nat :=
  let f := hwnds.filter (fun h => some h ≠ mainHwnd)
  if f.isEmpty then hwnds.take 1 else f

/-- BoxChampController._targets_for (lines 1049-1067). Returns the target
list together with the updated shared round-robin counter (the
__rr_default__ entry of _rr_state). -/
def targetsFor (hwnds : List Nat) (mainHwnd : Option Nat) (rrState : Nat)
    (procHwnd : List (String × Nat)) (target : String) (namedSlots : List String) :
    List Nat × Nat :=
  if hwnds.isEmpty then ([], rrState)
  else if target = "main" then
    (match mainHwnd with
     | some mh => if mh ≠ 0 then [mh] else []
     | Option.none => [], rrState)
  else if target = "all" then (hwnds, rrState)
  else if target = "all_except_main" then
    (hwnds.filter (fun h => some h ≠ mainHwnd), rrState)
  else if target = "slots" then
    (namedSlots.filterMap
      (fun s =>
        match procHwnd.lookup s with
        | some h => if h ≠ 0 then some h else Option.none
        | Option.none => Option.none), rrState)
  else if target = "round_robin" then
    let arr := rrArr hwnds mainHwnd
    if arr.isEmpty then ([], rrState)
    else
      let idx := rrState % arr.length
      ([arr.getD idx 0], idx + 1)
  else (hwnds, rrState)

/-- The target resolution of BoxChampController._run_macro_body for a
round-robin macro (lines 1070-1077): first _targets_for runs (advancing
the shared counter and producing a result that is then discarded), then
the per-macro rr_index selects the window and advances modulo the list
length. Returns (targets dispatched to, new shared counter, new macro
rr_index); a first component of Option.none is the early return that
dispatches nothing. -/
def runMacroRRTarget (hwnds : List Nat) (mainHwnd : Option Nat)
    (rrState : Nat) (rrIndex : Nat) : Option (List Nat) × Nat × Nat :=
  let resolved := targetsFor hwnds mainHwnd rrState [] "round_robin" []
  if resolved.1.isEmpty then (Option.none, resolved.2, rrIndex)
  else
    let arr := rrArr hwnds mainHwnd
    if arr.isEmpty then (Option.none, resolved.2, rrIndex)
    else
      let idx := rrIndex % arr.length
      (some [arr.getD idx 0], resolved.2, (idx + 1) % arr.length)

/-! ### Spec-side definition for the own-character statistic -/

/-- Modelled from the spec: the intended value of the
target_is_own_character statistic, a case-insensitive membership of the
snapshot target name in the configured set of own-character names. Used
only to compare the evaluator against the spec. -/
def specTargetIsOwn (slotNames : List String) (s : Stats) : Bool :=
  ((slotNames.filter (fun n => n ≠ "")).map strLower).contains
    (strLower s.target_name)

/-! ### Concrete witnesses: memories and snapshots -/

/-- The all-zero snapshot, the initial dict of get_combat_stats. -/
def stats0 : Stats :=
  { player_hp := 0, player_max_hp := 0, player_mp := 0, player_max_mp := 0
    player_hp_percent := 0, player_mp_percent := 0, player_level := 0
    target_hp := 0, target_max_hp := 0, target_hp_percent := 0
    target_level := 0, has_target := false, target_name := ""
    combo_points := 0 }

/-- A memory in which the whole snapshot path succeeds: player GUID 42 at
node 0x5000, target GUID 99 at node 0x6000, name chain ending in the
string thrall. -/
def okMem : Mem where
  readUInt a :=
    if a = 0xC79CE0 then some 0x1000
    else if a = 0x3ED0 then some 0x2000
    else if a = 0x20AC then some 0x5000
    else if a = 0x503C then some 0x6000
    else if a = 0x5008 then some 0x7000
    else if a = 0x6008 then some 0x8000
    else if a = 0x6964 then some 0x9000
    else if a = 0x905C then some 0x9100
    else Option.none
  readULongLong a :=
    if a = 0x20C0 then some 42
    else if a = 0x5030 then some 42
    else if a = 0x6030 then some 99
    else if a = 0xBD07B0 then some 99
    else Option.none
  readInt a :=
    if a = 0x7060 then some 4500
    else if a = 0x7080 then some 6000
    else if a = 0x7064 then some 100
    else if a = 0x7084 then some 200
    else if a = 0x70D8 then some 80
    else if a = 0x8060 then some 500
    else if a = 0x8080 then some 1000
    else if a = 0x80D8 then some 80
    else Option.none
  readUChar a := if a = 0xBD084D then some 3 else Option.none
  readString a := if a = 0x9100 then some "thrall" else Option.none

/-- The player values okMem yields. -/
def pvOk : PlayerVals := ⟨0x2000, 3, 4500, 6000, 100, 200, 80⟩

/-- The snapshot okMem yields. -/
def okStats : Stats :=
  { player_hp := 4500, player_max_hp := 6000, player_mp := 100
    player_max_mp := 200, player_hp_percent := 75, player_mp_percent := 50
    player_level := 80, target_hp := 500, target_max_hp := 1000
    target_hp_percent := 50, target_level := 80, has_target := true
    target_name := "thrall", combo_points := 3 }

/-- okMem with the read of the target descriptor pointer raising: the
player path still succeeds, the target GUID is 99, the target object is
found at 0x6000, but the descriptor read at 0x6008 fails. -/
def cexMemC4 : Mem :=
  { okMem with
    readUInt := fun a => if a = 0x6008 then Option.none else okMem.readUInt a }

/-- okMem with the target descriptor pointer reading as null (a
non-raising failure): the target sub-path degrades gracefully. -/
def memW4 : Mem :=
  { okMem with
    readUInt := fun a => if a = 0x6008 then some 0 else okMem.readUInt a }

/-- A memory whose object chain is a one-node cycle: node 0x5000 carries
GUID 1 and its next pointer leads back to 0x5000. -/
def cycMem : Mem where
  readUInt a :=
    if a = 0xC79CE0 then some 0x1000
    else if a = 0x3ED0 then some 0x2000
    else if a = 0x20AC then some 0x5000
    else if a = 0x503C then some 0x5000
    else Option.none
  readULongLong a := if a = 0x5030 then some 1 else Option.none
  readInt _ := Option.none
  readUChar _ := Option.none
  readString _ := Option.none

/-! ### Helper lemmas -/

lemma findLoopSteps_le (m : Mem) (guid : Nat) :
    ∀ fuel cur, findLoopSteps m guid cur fuel ≤ fuel := by
  intro fuel
  induction fuel with
  | zero => intro _; exact Nat.le_refl 0
  | succ n ih =>
    intro cur
    rw [findLoopSteps]
    split
    · exact Nat.zero_le _
    · split
      · omega
      · split
        · omega
        · split
          · omega
          · rename_i nxt _
            have := ih nxt
            omega

lemma findLoop_sound (m : Mem) (guid : Nat) :
    ∀ fuel cur, findLoop m guid cur fuel = 0 ∨
      m.readULongLong (findLoop m guid cur fuel + OBJECT_GUID_OFFSET) = some guid := by
  intro fuel
  induction fuel with
  | zero => intro _; exact Or.inl rfl
  | succ n ih =>
    intro cur
    rw [findLoop]
    split
    · exact Or.inl rfl
    · split
      · exact Or.inl rfl
      · rename_i g hread
        split
        · rename_i hg
          right
          rw [hread, hg]
        · split
          · exact Or.inl rfl
          · rename_i nxt _
            exact ih nxt

lemma cycFindLoop : ∀ fuel, findLoop cycMem 7 0x5000 fuel = 0 := by
  intro fuel
  induction fuel with
  | zero => rfl
  | succ n ih =>
    rw [findLoop]
    norm_num [cycMem, OBJECT_GUID_OFFSET, NEXT_OBJECT_OFFSET]
    exact ih

/-! ### Claim theorems -/

/-- Claim C1: every snapshot produced by get_combat_stats has each derived
percent field equal to the banker-rounded value of value over max times
100 when the max is positive, and 0 when it is not, the division being
guarded so it is only taken under the positivity check; and 4500 of 6000
gives 75. -/
theorem combat_stats_percent_fields :
    (∀ (m : Mem) (cache : Nat) (s : Stats), getCombatStats m cache = some s →
      s.player_hp_percent = pct s.player_hp s.player_max_hp
      ∧ s.player_mp_percent = pct s.player_mp s.player_max_mp
      ∧ s.target_hp_percent = pct s.target_hp s.target_max_hp)
    ∧ (∀ v mx : Int, ¬ 0 < mx → pct v mx = 0)
    ∧ pct 4500 6000 = 75 := by
  refine ⟨?_, ?_, by decide⟩
  · intro m cache s h
    unfold getCombatStats at h
    rcases hp : playerPart m cache with _ | pv <;> rw [hp] at h
    · exact absurd h (by simp)
    · have h2 : Option.map (mkStats pv) (targetPart m pv.objMgr) = some s := h
      rcases Option.map_eq_some'.mp h2 with ⟨tv, _, hmk⟩
      subst hmk
      exact ⟨rfl, rfl, rfl⟩
  · intro v mx hmx
    unfold pct
    rw [if_neg hmx]

/-- Witness for claim C1 at the concrete memory okMem. -/
theorem combat_stats_percent_fields_witness :
    okStats.player_hp_percent = pct okStats.player_hp okStats.player_max_hp :=
  (combat_stats_percent_fields.1 okMem 0 okStats (by decide)).1

/-- Claim C2: every object lookup executes at most 4096 link-following
loop iterations (the function is total, so it terminates on every memory,
cyclic chains included); any non-raising outcome is either the none result
0 - the cap, a null pointer, or a broken read - or a node whose stored
8-byte identifier is the searched GUID; and on a concrete one-node cyclic
chain the lookup returns none (0). -/
theorem find_by_guid_bounded :
    (∀ (m : Mem) (cache guid : Nat), findCallSteps m cache guid ≤ 4096)
    ∧ (∀ (m : Mem) (cache guid r : Nat),
        findObjectBaseByGuidC m cache guid = some r →
          r = 0 ∨ m.readULongLong (r + OBJECT_GUID_OFFSET) = some guid)
    ∧ findObjectBaseByGuidC cycMem 0 7 = some 0 := by
  refine ⟨?_, ?_, ?_⟩
  · intro m cache guid
    simp only [findCallSteps]
    split
    · exact Nat.zero_le _
    · split
      · exact Nat.zero_le _
      · rename_i cur _
        exact findLoopSteps_le m guid 4096 cur
  · intro m cache guid r h
    simp only [findObjectBaseByGuidC] at h
    split at h
    · simp only [Option.some.injEq] at h
      exact Or.inl h.symm
    · split at h
      · exact absurd h (by simp)
      · rename_i cur _
        simp only [Option.some.injEq] at h
        subst h
        exact findLoop_sound m guid 4096 cur
  · have h2 : findLoop cycMem 7 0x5000 4096 = 0 := cycFindLoop 4096
    have h1 : findObjectBaseByGuidC cycMem 0 7 = some (findLoop cycMem 7 0x5000 4096) := by
      simp only [findObjectBaseByGuidC]
      norm_num [getObjectManagerBase, cycMem, CUR_MGR_POINTER, CUR_MGR_OFFSET,
        FIRST_OBJECT_OFFSET]
    rw [h1, h2]

/-- Witness for claim C2: the soundness clause applied at okMem, where the
player GUID 42 is found at node 0x5000 and indeed carries identifier 42. -/
theorem find_by_guid_bounded_witness :
    okMem.readULongLong (0x5000 + OBJECT_GUID_OFFSET) = some 42 :=
  (find_by_guid_bounded.2.1 okMem 0 42 0x5000 (by decide)).resolve_left (by decide)

/-- A rule whose single condition compares the has_target statistic with
a string literal: its evaluation raises. -/
def crashRule : RotationRule := ⟨["2"], [⟨"has_target", "==", PyVal.vStr "x"⟩]⟩

/-- A rule with no conditions: its conditions all hold vacuously. -/
def okRule : RotationRule := ⟨["1"], []⟩

/-- Claim C3 (counterexample): a rotation whose first rule raises during
condition evaluation and whose second rule has all conditions holding. The
tick raises (Option.none) and dispatches nothing, although a rule whose
conditions all hold is present, so the claim as stated fails on this
rotation. -/
theorem rotation_first_match_fires_cex :
    condAll [] crashRule.conditions stats0 = Option.none
    ∧ condAll [] okRule.conditions stats0 = some true
    ∧ tickFire [] [crashRule, okRule] stats0 = Option.none := by decide

/-- Claim C3 (amended): provided every rule evaluated before the first
match evaluates to a clean false (no condition evaluation raises), the
tick dispatches exactly the key sequence of the first rule whose
conditions all hold, whatever rules follow it; and when every rule
evaluates to a clean false, nothing is dispatched. -/
theorem rotation_first_match_fires :
    ∀ (sn : List String) (s : Stats),
      (∀ (pre post : List RotationRule) (r : RotationRule),
        condAll sn r.conditions s = some true →
        (∀ q ∈ pre, condAll sn q.conditions s = some false) →
        tickFire sn (pre ++ r :: post) s = some (some r.keys_to_press))
      ∧ (∀ rules : List RotationRule,
        (∀ q ∈ rules, condAll sn q.conditions s = some false) →
        tickFire sn rules s = some Option.none) := by
  intro sn s
  constructor
  · intro pre post r hr hpre
    induction pre with
    | nil =>
      simp only [List.nil_append, tickFire]
      rw [hr]
    | cons q rest ih =>
      have hq : condAll sn q.conditions s = some false :=
        hpre q (List.mem_cons_self q rest)
      simp only [List.cons_append, tickFire]
      rw [hq]
      exact ih (fun x hx => hpre x (List.mem_cons_of_mem q hx))
  · intro rules hall
    induction rules with
    | nil => rfl
    | cons q rest ih =>
      have hq : condAll sn q.conditions s = some false :=
        hall q (List.mem_cons_self q rest)
      simp only [tickFire]
      rw [hq]
      exact ih (fun x hx => hall x (List.mem_cons_of_mem q hx))

/-- The first example rule of the spec: on hp below 50 press 1. -/
def ruleR1 : RotationRule := ⟨["1"], [⟨"player_hp_percent", "<", PyVal.vInt 50⟩]⟩

/-- The second example rule of the spec: on hp below 100 press 2. -/
def ruleR2 : RotationRule := ⟨["2"], [⟨"player_hp_percent", "<", PyVal.vInt 100⟩]⟩

/-- The spec example snapshot with hp percent 40. -/
def statsHp40 : Stats := { stats0 with player_hp_percent := 40 }

/-- Witness for claim C3, the example of the spec: with rules R1 (hp
below 50) and R2 (hp below 100) and hp 40, only the key of R1 is
dispatched. -/
theorem rotation_first_match_fires_witness :
    tickFire [] [ruleR1, ruleR2] statsHp40 = some (some ["1"]) :=
  (rotation_first_match_fires [] statsHp40).1 [] [ruleR2] ruleR1 (by decide)
    (fun q hq => absurd hq (List.not_mem_nil q))

/-- Claim C4 (counterexample): in cexMemC4 the player-side path succeeds,
the target GUID is the non-zero 99, the target object resolves to 0x6000,
and the single raising read is the target descriptor pointer; the whole
snapshot call then returns none instead of degrading to zero target
stats, so the claim as stated fails. -/
theorem target_path_graceful_cex :
    (playerPart cexMemC4 0).isSome = true
    ∧ cexMemC4.readULongLong TARGET_GUID_STATIC = some 99
    ∧ findObjectBaseByGuidC cexMemC4 0x2000 99 = some 0x6000
    ∧ cexMemC4.readUInt (0x6000 + M_STORAGE_OFFSET) = Option.none
    ∧ getCombatStats cexMemC4 0 = Option.none := by decide

/-- Claim C4 (amended): when the player-side path succeeds and the target
GUID is non-zero, the non-raising failures of the target sub-path - the
target object not found (0) or a null target descriptor pointer - degrade
gracefully into a snapshot with zero target stats, the has-target flag
set, and the name produced by the name chain (empty when the target was
not found); raising reads in the target sub-path, by contrast, abort the
whole snapshot (see the counterexample). -/
theorem target_path_graceful :
    ∀ (m : Mem) (cache : Nat) (pv : PlayerVals) (tg tb : Nat),
      playerPart m cache = some pv →
      m.readULongLong TARGET_GUID_STATIC = some tg →
      tg ≠ 0 →
      findObjectBaseByGuidC m pv.objMgr tg = some tb →
      (tb = 0 ∨ m.readUInt (tb + M_STORAGE_OFFSET) = some 0) →
      getCombatStats m cache =
        some (mkStats pv ⟨true, 0, 0, 0, if tb = 0 then "" else readTargetName m tb⟩) := by
  intro m cache pv tg tb hp htg htgne hfind hdeg
  have htv : targetPart m pv.objMgr =
      some ⟨true, 0, 0, 0, if tb = 0 then "" else readTargetName m tb⟩ := by
    simp only [targetPart, htg]
    rw [if_neg htgne]
    simp only [hfind]
    by_cases h0 : tb = 0
    · simp [h0]
    · rcases hdeg with h0x | hdesc
      · exact absurd h0x h0
      · simp [h0, hdesc]
  unfold getCombatStats
  rw [hp]
  have hmain : Option.map (mkStats pv) (targetPart m pv.objMgr) =
      some (mkStats pv ⟨true, 0, 0, 0, if tb = 0 then "" else readTargetName m tb⟩) := by
    rw [htv]
    rfl
  exact hmain

/-- Witness for claim C4 at memW4, where the target descriptor pointer
reads as null: the snapshot degrades to zero target stats with the name
still read from the intact name chain. -/
theorem target_path_graceful_witness :
    getCombatStats memW4 0 =
      some (mkStats pvOk ⟨true, 0, 0, 0, readTargetName memW4 0x6000⟩) := by
  have h := target_path_graceful memW4 0 pvOk 99 0x6000 (by decide) (by decide)
    (by decide) (by decide) (Or.inr (by decide))
  simpa using h

/-- Literals that the Python comparison with 0 accepts without raising:
ints, floats and bools; strings and None raise TypeError. -/
def comparableLit : PyVal → Bool
  | PyVal.vStr _ => false
  | PyVal.vNone => false
  | _ => true

lemma statsGet_shape (s : Stats) (k : String) :
    statsGet s k = Option.none
    ∨ (k = "has_target" ∧ statsGet s k = some (PyVal.vBool s.has_target))
    ∨ (k = "target_name" ∧ statsGet s k = some (PyVal.vStr s.target_name))
    ∨ ∃ i, statsGet s k = some (PyVal.vInt i) := by
  by_cases h1 : k = "player_hp"
  · exact Or.inr (Or.inr (Or.inr ⟨s.player_hp, by simp [statsGet, h1]⟩))
  by_cases h2 : k = "player_max_hp"
  · exact Or.inr (Or.inr (Or.inr ⟨s.player_max_hp, by simp [statsGet, h1, h2]⟩))
  by_cases h3 : k = "player_mp"
  · exact Or.inr (Or.inr (Or.inr ⟨s.player_mp, by simp [statsGet, h1, h2, h3]⟩))
  by_cases h4 : k = "player_max_mp"
  · exact Or.inr (Or.inr (Or.inr ⟨s.player_max_mp, by simp [statsGet, h1, h2, h3, h4]⟩))
  by_cases h5 : k = "player_hp_percent"
  · exact Or.inr (Or.inr (Or.inr ⟨s.player_hp_percent, by simp [statsGet, h1, h2, h3, h4, h5]⟩))
  by_cases h6 : k = "player_mp_percent"
  · exact Or.inr (Or.inr (Or.inr ⟨s.player_mp_percent, by simp [statsGet, h1, h2, h3, h4, h5, h6]⟩))
  by_cases h7 : k = "player_level"
  · exact Or.inr (Or.inr (Or.inr ⟨s.player_level, by simp [statsGet, h1, h2, h3, h4, h5, h6, h7]⟩))
  by_cases h8 : k = "target_hp"
  · exact Or.inr (Or.inr (Or.inr ⟨s.target_hp, by simp [statsGet, h1, h2, h3, h4, h5, h6, h7, h8]⟩))
  by_cases h9 : k = "target_max_hp"
  · exact Or.inr (Or.inr (Or.inr ⟨s.target_max_hp, by simp [statsGet, h1, h2, h3, h4, h5, h6, h7, h8, h9]⟩))
  by_cases h10 : k = "target_hp_percent"
  · exact Or.inr (Or.inr (Or.inr ⟨s.target_hp_percent, by simp [statsGet, h1, h2, h3, h4, h5, h6, h7, h8, h9, h10]⟩))
  by_cases h11 : k = "target_level"
  · exact Or.inr (Or.inr (Or.inr ⟨s.target_level, by simp [statsGet, h1, h2, h3, h4, h5, h6, h7, h8, h9, h10, h11]⟩))
  by_cases h12 : k = "has_target"
  · exact Or.inr (Or.inl ⟨h12, by simp [statsGet, h1, h2, h3, h4, h5, h6, h7, h8, h9, h10, h11, h12]⟩)
  by_cases h13 : k = "target_name"
  · exact Or.inr (Or.inr (Or.inl ⟨h13, by simp [statsGet, h1, h2, h3, h4, h5, h6, h7, h8, h9, h10, h11, h12, h13]⟩))
  by_cases h14 : k = "combo_points"
  · exact Or.inr (Or.inr (Or.inr ⟨s.combo_points, by simp [statsGet, h1, h2, h3, h4, h5, h6, h7, h8, h9, h10, h11, h12, h13, h14]⟩))
  exact Or.inl (by simp [statsGet, h1, h2, h3, h4, h5, h6, h7, h8, h9, h10, h11, h12, h13, h14])

/-- Claim C5 (counterexample): a condition on has_target whose literal is
the string yes. Its field is present in every snapshot, so the evaluator
reaches the comparison of the literal with 0, which raises TypeError
(modelled Option.none), refuting the claim that evaluation never raises. -/
theorem condition_eval_never_raises_cex :
    checkCondition [] ⟨"has_target", "==", PyVal.vStr "yes"⟩ stats0 = Option.none := by
  decide

lemma statsGet_has_target_eq (s : Stats) :
    statsGet s "has_target" = some (PyVal.vBool s.has_target) := rfl

lemma statsGet_target_name_eq (s : Stats) :
    statsGet s "target_name" = some (PyVal.vStr s.target_name) := rfl

lemma statsGet_toc_eq (s : Stats) :
    statsGet s "target_is_own_character" = Option.none := rfl

lemma pyGtZero_isSome_of_comparable (v : PyVal) (h : comparableLit v = true) :
    (pyGtZero v).isSome = true := by
  cases v <;> simp [comparableLit, pyGtZero] at h ⊢

lemma checkCondition_has_target (sn : List String) (co : String) (v : PyVal)
    (s : Stats) (eb : Bool) (hv : pyGtZero v = some eb) :
    checkCondition sn ⟨"has_target", co, v⟩ s
      = (if co = "==" then some (s.has_target == eb)
         else if co = "!=" then some (s.has_target != eb)
         else some false) := by
  have e : checkCondition sn ⟨"has_target", co, v⟩ s
      = (match pyGtZero v with
         | Option.none => Option.none
         | some expected =>
           if co = "==" then some (s.has_target == expected)
           else if co = "!=" then some (s.has_target != expected)
           else some false) := rfl
  rw [e, hv]

lemma checkCondition_target_name (sn : List String) (co : String) (v : PyVal)
    (s : Stats) :
    checkCondition sn ⟨"target_name", co, v⟩ s
      = (if co = "==" then some (strLower s.target_name == strLower (pyStr v))
         else if co = "!=" then some (strLower s.target_name != strLower (pyStr v))
         else some false) := rfl

/-- Claim C5 (amended): condition evaluation is fail-closed - an unknown
statistic kind or missing snapshot field gives false, an operator outside
the six comparison operators gives false (for literals that do not raise),
and a literal not coercible to a number gives false on the numeric
statistics - and it returns without raising except in the single case of
a condition on has_target or target_is_own_character whose literal is a
string or None, where the comparison of the literal with 0 raises. -/
theorem condition_eval_fail_closed :
    (∀ (sn : List String) (c : Condition) (s : Stats),
      statsGet s c.stat = Option.none → checkCondition sn c s = some false)
    ∧ (∀ (sn : List String) (c : Condition) (s : Stats),
      ((c.stat = "has_target" ∨ c.stat = "target_is_own_character") →
        comparableLit c.value = true) →
      (checkCondition sn c s).isSome = true)
    ∧ (∀ (sn : List String) (c : Condition) (s : Stats),
      comparableLit c.value = true → c.operator ∉ VALID_OPERATORS →
      checkCondition sn c s = some false)
    ∧ (∀ (sn : List String) (c : Condition) (s : Stats),
      c.stat ≠ "has_target" → c.stat ≠ "target_is_own_character" →
      c.stat ≠ "target_name" → pyToFloat c.value = Option.none →
      checkCondition sn c s = some false) := by
  refine ⟨?_, ?_, ?_, ?_⟩
  · intro sn c s h
    simp [checkCondition, h]
  · intro sn c s hguard
    obtain ⟨cs, co, cv⟩ := c
    simp only at hguard
    rcases statsGet_shape s cs with hsg | ⟨hk, hsg⟩ | ⟨hk, hsg⟩ | ⟨i, hsg⟩
    · simp [checkCondition, hsg]
    · subst hk
      have hc : comparableLit cv = true := hguard (Or.inl rfl)
      rcases hg : pyGtZero cv with _ | eb
      · have hs := pyGtZero_isSome_of_comparable cv hc
        rw [hg] at hs
        exact absurd hs (by simp)
      · rw [checkCondition_has_target sn co cv s eb hg]
        split_ifs <;> rfl
    · subst hk
      rw [checkCondition_target_name]
      split_ifs <;> rfl
    · by_cases hb1 : cs = "has_target"
      · subst hb1; rw [statsGet_has_target_eq] at hsg; exact absurd hsg (by simp)
      by_cases hb2 : cs = "target_is_own_character"
      · subst hb2; rw [statsGet_toc_eq] at hsg; exact absurd hsg (by simp)
      by_cases hn : cs = "target_name"
      · subst hn; rw [statsGet_target_name_eq] at hsg; exact absurd hsg (by simp)
      simp only [checkCondition, hsg]
      rw [if_neg (fun hor => hor.elim hb1 hb2), if_neg hn]
      by_cases hop : co ∈ VALID_OPERATORS
      · rw [if_neg (not_not_intro hop)]
        cases hpf : pyToFloat cv with
        | none => simp
        | some q => simp [pyNumOf]
      · rw [if_pos hop]
        rfl
  · intro sn c s hlit hop
    obtain ⟨cs, co, cv⟩ := c
    simp only at hlit hop
    have hco1 : co ≠ "==" := fun h => hop (show co ∈ VALID_OPERATORS by rw [h]; decide)
    have hco2 : co ≠ "!=" := fun h => hop (show co ∈ VALID_OPERATORS by rw [h]; decide)
    rcases statsGet_shape s cs with hsg | ⟨hk, hsg⟩ | ⟨hk, hsg⟩ | ⟨i, hsg⟩
    · simp [checkCondition, hsg]
    · subst hk
      rcases hg : pyGtZero cv with _ | eb
      · have hs := pyGtZero_isSome_of_comparable cv hlit
        rw [hg] at hs
        exact absurd hs (by simp)
      · rw [checkCondition_has_target sn co cv s eb hg, if_neg hco1, if_neg hco2]
    · subst hk
      rw [checkCondition_target_name, if_neg hco1, if_neg hco2]
    · by_cases hb1 : cs = "has_target"
      · subst hb1; rw [statsGet_has_target_eq] at hsg; exact absurd hsg (by simp)
      by_cases hb2 : cs = "target_is_own_character"
      · subst hb2; rw [statsGet_toc_eq] at hsg; exact absurd hsg (by simp)
      by_cases hn : cs = "target_name"
      · subst hn; rw [statsGet_target_name_eq] at hsg; exact absurd hsg (by simp)
      simp only [checkCondition, hsg]
      rw [if_neg (fun hor => hor.elim hb1 hb2), if_neg hn, if_pos hop]
  · intro sn c s h1 h2 h3 hpf
    obtain ⟨cs, co, cv⟩ := c
    simp only at h1 h2 h3 hpf
    rcases statsGet_shape s cs with hsg | ⟨hk, hsg⟩ | ⟨hk, hsg⟩ | ⟨i, hsg⟩
    · simp [checkCondition, hsg]
    · exact absurd hk h1
    · exact absurd hk h3
    · simp only [checkCondition, hsg]
      rw [if_neg (fun hor => hor.elim h1 h2), if_neg h3]
      by_cases hop : co ∈ VALID_OPERATORS
      · rw [if_neg (not_not_intro hop), hpf]
      · rw [if_pos hop]

/-- Witness for claim C5: the fail-closed clauses applied at concrete
inputs - an unknown statistic kind evaluates false, and a numeric
condition with a non-coercible literal evaluates false. -/
theorem condition_eval_fail_closed_witness :
    checkCondition [] ⟨"bogus_stat", "<", PyVal.vInt 1⟩ okStats = some false
    ∧ checkCondition [] ⟨"player_level", "<", PyVal.vStr "abc"⟩ okStats = some false :=
  ⟨condition_eval_fail_closed.1 [] ⟨"bogus_stat", "<", PyVal.vInt 1⟩ okStats (by decide),
   condition_eval_fail_closed.2.2.2 [] ⟨"player_level", "<", PyVal.vStr "abc"⟩ okStats
     (by decide) (by decide) (by decide) (by decide)⟩

lemma clientTick_cases (sn : List String) (rot : CombatRotation) (st : Option Stats)
    (lf t : ℚ) (r : Option (List String)) (lf2 : ℚ)
    (h : clientTick sn rot st lf t = some (r, lf2)) :
    (r = Option.none ∧ lf2 = lf) ∨
    (∃ ks, r = some ks ∧ lf2 = t ∧ rot.loop_interval ≤ t - lf) := by
  unfold clientTick at h
  split_ifs at h with hgate
  · simp only [Option.some.injEq, Prod.mk.injEq] at h
    exact Or.inl ⟨h.1.symm, h.2.symm⟩
  · cases st with
    | none =>
      have h2 : (some (Option.none, lf) : Option (Option (List String) × ℚ))
          = some (r, lf2) := h
      simp only [Option.some.injEq, Prod.mk.injEq] at h2
      exact Or.inl ⟨h2.1.symm, h2.2.symm⟩
    | some s0 =>
      have h2 : (match tickFire sn rot.rules s0 with
          | Option.none => Option.none
          | some Option.none => some (Option.none, lf)
          | some (some keys) => some (some keys, t)) = some (r, lf2) := h
      cases htf : tickFire sn rot.rules s0 with
      | none => rw [htf] at h2; exact absurd h2 (by simp)
      | some ro =>
        rw [htf] at h2
        cases ro with
        | none =>
          simp only [Option.some.injEq, Prod.mk.injEq] at h2
          exact Or.inl ⟨h2.1.symm, h2.2.symm⟩
        | some ks =>
          simp only [Option.some.injEq, Prod.mk.injEq] at h2
          exact Or.inr ⟨ks, h2.1.symm, h2.2.symm, by linarith [not_lt.mp hgate]⟩

lemma runTicks_head_ge (sn : List String) (rot : CombatRotation) :
    ∀ (ticks : List (ℚ × Option Stats)) (lf b : ℚ) (l2 : List ℚ),
      runTicks sn rot lf ticks = b :: l2 → lf + rot.loop_interval ≤ b := by
  intro ticks
  induction ticks with
  | nil => intro lf b l2 h; exact absurd h (by simp [runTicks])
  | cons p rest ih =>
    intro lf b l2 h
    obtain ⟨t, st⟩ := p
    cases hct : clientTick sn rot st lf t with
    | none => rw [runTicks, hct] at h; exact absurd h (by simp)
    | some pr =>
      obtain ⟨r, lf2⟩ := pr
      rcases clientTick_cases sn rot st lf t r lf2 hct with ⟨hr, hlf⟩ | ⟨ks, hr, hlf, hge⟩
      · subst hr
        rw [runTicks, hct] at h
        have h2 : runTicks sn rot lf2 rest = b :: l2 := h
        rw [hlf] at h2
        exact ih lf b l2 h2
      · subst hr
        rw [runTicks, hct] at h
        have h2 : t :: runTicks sn rot lf2 rest = b :: l2 := h
        have hb : t = b := (List.cons.injEq t _ b l2).mp h2 |>.1
        rw [← hb]
        linarith

lemma runTicks_spaced (sn : List String) (rot : CombatRotation) :
    ∀ (ticks : List (ℚ × Option Stats)) (lf : ℚ),
      spaced rot.loop_interval (runTicks sn rot lf ticks) = true := by
  intro ticks
  induction ticks with
  | nil => intro lf; rfl
  | cons p rest ih =>
    intro lf
    obtain ⟨t, st⟩ := p
    cases hct : clientTick sn rot st lf t with
    | none => rw [runTicks, hct]; rfl
    | some pr =>
      obtain ⟨r, lf2⟩ := pr
      rcases clientTick_cases sn rot st lf t r lf2 hct with ⟨hr, hlf⟩ | ⟨ks, hr, hlf, _⟩
      · subst hr
        rw [runTicks, hct]
        show spaced rot.loop_interval (runTicks sn rot lf2 rest) = true
        rw [hlf]
        exact ih lf
      · subst hr
        rw [runTicks, hct]
        show spaced rot.loop_interval (t :: runTicks sn rot lf2 rest) = true
        rw [hlf]
        cases hl : runTicks sn rot t rest with
        | nil => rfl
        | cons b l2 =>
          have hb : t + rot.loop_interval ≤ b := runTicks_head_ge sn rot rest t b l2 hl
          have hs : spaced rot.loop_interval (b :: l2) = true := by
            rw [← hl]; exact ih t
          simp only [spaced, Bool.and_eq_true, decide_eq_true_eq]
          exact ⟨hb, hs⟩

/-- Claim C6: the per-client interval gate of the scheduler. The fire
times of any run are spaced at least one rotation interval apart (at most
one fire per interval-length window); a tick arriving before the interval
has elapsed since the recorded last fire skips the client, touching
neither rules nor timestamp; a tick on which no rule fires leaves the
last-fire timestamp unchanged; and the timestamp is set to the tick time
exactly when a rule fires, which requires the interval to have elapsed. -/
theorem rotation_interval_gate :
    ∀ (sn : List String) (rot : CombatRotation) (lf : ℚ)
      (ticks : List (ℚ × Option Stats)),
      spaced rot.loop_interval (runTicks sn rot lf ticks) = true
      ∧ (∀ (st : Option Stats) (lf0 t : ℚ), t - lf0 < rot.loop_interval →
          clientTick sn rot st lf0 t = some (Option.none, lf0))
      ∧ (∀ (st : Option Stats) (lf0 t lf2 : ℚ),
          clientTick sn rot st lf0 t = some (Option.none, lf2) → lf2 = lf0)
      ∧ (∀ (st : Option Stats) (lf0 t lf2 : ℚ) (ks : List String),
          clientTick sn rot st lf0 t = some (some ks, lf2) →
          lf2 = t ∧ rot.loop_interval ≤ t - lf0) := by
  intro sn rot lf ticks
  refine ⟨runTicks_spaced sn rot ticks lf, ?_, ?_, ?_⟩
  · intro st lf0 t h
    unfold clientTick
    rw [if_pos h]
  · intro st lf0 t lf2 h
    rcases clientTick_cases sn rot st lf0 t Option.none lf2 h with ⟨_, hlf⟩ | ⟨ks, hr, _, _⟩
    · exact hlf
    · exact absurd hr.symm (by simp)
  · intro st lf0 t lf2 ks h
    rcases clientTick_cases sn rot st lf0 t (some ks) lf2 h with ⟨hr, _⟩ | ⟨ks2, _, hlf, hge⟩
    · exact absurd hr (by simp)
    · exact ⟨hlf, hge⟩

/-- The witness rotation: interval one half second, a single rule with no
conditions. -/
def rotW : CombatRotation := ⟨"w", [⟨["1"], []⟩], 1/2⟩

/-- The witness tick sequence: ticks at 1, 11 tenths and 3 halves, each
with a snapshot available. -/
def ticksW : List (ℚ × Option Stats) :=
  [(1, some stats0), (11/10, some stats0), (3/2, some stats0)]

/-- Witness for claim C6: a tick arriving a quarter second after the last
fire of a half-second rotation skips; a tick arriving a full second after
fires and records the tick time; the fire times of the concrete run are
spaced at least the interval apart. -/
theorem rotation_interval_gate_witness :
    clientTick [] rotW (some stats0) 0 (1/4) = some (Option.none, 0)
    ∧ ((1 : ℚ) = 1 ∧ rotW.loop_interval ≤ 1 - 0)
    ∧ spaced rotW.loop_interval (runTicks [] rotW 0 ticksW) = true :=
  ⟨(rotation_interval_gate [] rotW 0 []).2.1 (some stats0) 0 (1/4) (by decide),
   (rotation_interval_gate [] rotW 0 []).2.2.2 (some stats0) 0 1 1 ["1"] (by decide),
   (rotation_interval_gate [] rotW 0 ticksW).1⟩

lemma rrArr_ne_nil (hwnds : List Nat) (mainH : Option Nat) (h : hwnds ≠ []) :
    rrArr hwnds mainH ≠ [] := by
  simp only [rrArr]
  split
  · cases hwnds with
    | nil => exact absurd rfl h
    | cons a l => simp
  · rename_i hne
    intro hc
    rw [hc] at hne
    exact hne rfl

lemma rrArr_hwnds_ne_nil (hwnds : List Nat) (mainH : Option Nat)
    (h : rrArr hwnds mainH ≠ []) : hwnds ≠ [] := by
  intro hc
  subst hc
  exact h rfl

lemma targetsFor_rr (hwnds : List Nat) (mainH : Option Nat) (rrd : Nat)
    (hh : hwnds ≠ []) (harr : rrArr hwnds mainH ≠ []) :
    targetsFor hwnds mainH rrd [] "round_robin" []
      = ([(rrArr hwnds mainH).getD (rrd % (rrArr hwnds mainH).length) 0],
         rrd % (rrArr hwnds mainH).length + 1) := by
  have hhe : hwnds.isEmpty = false := by
    cases hwnds with
    | nil => exact absurd rfl hh
    | cons a l => rfl
  have hae : (rrArr hwnds mainH).isEmpty = false := by
    cases hA : rrArr hwnds mainH with
    | nil => exact absurd hA harr
    | cons a l => rfl
  simp only [targetsFor, hhe]
  rw [if_neg (by decide : ¬("round_robin" = "main")),
      if_neg (by decide : ¬("round_robin" = "all")),
      if_neg (by decide : ¬("round_robin" = "all_except_main")),
      if_neg (by decide : ¬("round_robin" = "slots"))]
  norm_num [hae]

lemma runMacroRR_eq (hwnds : List Nat) (mainH : Option Nat) (rrd rri : Nat)
    (hh : hwnds ≠ []) (harr : rrArr hwnds mainH ≠ []) :
    runMacroRRTarget hwnds mainH rrd rri
      = (some [(rrArr hwnds mainH).getD (rri % (rrArr hwnds mainH).length) 0],
         rrd % (rrArr hwnds mainH).length + 1,
         (rri % (rrArr hwnds mainH).length + 1) % (rrArr hwnds mainH).length) := by
  have hae : (rrArr hwnds mainH).isEmpty = false := by
    cases hA : rrArr hwnds mainH with
    | nil => exact absurd hA harr
    | cons a l => rfl
  simp only [runMacroRRTarget, targetsFor_rr hwnds mainH rrd hh harr]
  norm_num [hae]

/-- Claim C7: a round-robin macro invocation targets exactly the element
of the non-main handle list indexed by the persistent per-macro rr_index
modulo the list length, and advances that index by one modulo the list
length, so successive invocations cycle through the list in order; on the
concrete registry with main 10 and non-main handles 11, 12, 13, four
successive invocations (the index state threaded through) target 11, 12,
13 and 11 again. -/
theorem round_robin_cycles :
    (∀ (hwnds : List Nat) (mainH : Option Nat) (rrd rri : Nat),
      rrArr hwnds mainH ≠ [] →
      (runMacroRRTarget hwnds mainH rrd rri).1
          = some [(rrArr hwnds mainH).getD (rri % (rrArr hwnds mainH).length) 0]
        ∧ (runMacroRRTarget hwnds mainH rrd rri).2.2
          = (rri % (rrArr hwnds mainH).length + 1) % (rrArr hwnds mainH).length)
    ∧ runMacroRRTarget [10, 11, 12, 13] (some 10) 0 0 = (some [11], 1, 1)
    ∧ runMacroRRTarget [10, 11, 12, 13] (some 10) 1 1 = (some [12], 2, 2)
    ∧ runMacroRRTarget [10, 11, 12, 13] (some 10) 2 2 = (some [13], 3, 0)
    ∧ runMacroRRTarget [10, 11, 12, 13] (some 10) 3 0 = (some [11], 1, 1) := by
  refine ⟨?_, by decide, by decide, by decide, by decide⟩
  intro hwnds mainH rrd rri harr
  rw [runMacroRR_eq hwnds mainH rrd rri (rrArr_hwnds_ne_nil hwnds mainH harr) harr]
  exact ⟨rfl, rfl⟩

/-- Witness for claim C7: the general clause applied to the concrete
registry, giving the second non-main handle for index 1. -/
theorem round_robin_cycles_witness :
    (runMacroRRTarget [10, 11, 12, 13] (some 10) 5 1).1 = some [12]
    ∧ (runMacroRRTarget [10, 11, 12, 13] (some 10) 5 1).2.2 = 2 := by
  have h := round_robin_cycles.1 [10, 11, 12, 13] (some 10) 5 1 (by decide)
  exact ⟨h.1.trans (by decide), h.2.trans (by decide)⟩

/-- Claim C8: the target_is_own_character statistic is dead in the
evaluator. A snapshot dict never carries that key, so the evaluator
returns false for every such condition regardless of operator, literal,
configured names and snapshot, before reaching its own membership logic;
in particular, on the concrete snapshot with target name thrall and the
configured own-character name Thrall, the spec-intended case-insensitive
membership is true while the evaluator still yields false. -/
theorem target_own_character_dead :
    (∀ (sn : List String) (co : String) (cv : PyVal) (s : Stats),
      checkCondition sn ⟨"target_is_own_character", co, cv⟩ s = some false)
    ∧ specTargetIsOwn ["Thrall"] okStats = true
    ∧ checkCondition ["Thrall"] ⟨"target_is_own_character", "==", PyVal.vInt 1⟩ okStats
        = some false := by
  refine ⟨?_, by decide, by decide⟩
  intro sn co cv s
  rfl

/-- Claim C9 (counterexample): a successful snapshot from the concrete
memory okMem, where target_is_own_character is a known statistic kind
(a member of VALID_STATS) whose lookup on the snapshot dict misses. -/
theorem snapshot_schema_complete_cex :
    getCombatStats okMem 0 = some okStats
    ∧ "target_is_own_character" ∈ VALID_STATS
    ∧ statsGet okStats "target_is_own_character" = Option.none := by
  refine ⟨by decide, by decide, rfl⟩

/-- Claim C9 (amended): every snapshot returned by get_combat_stats
contains all fourteen dict-schema fields, so looking up any of those
fourteen keys never misses; the statistic kind target_is_own_character,
though known to the condition evaluator, is not among them and its lookup
misses (see the counterexample). -/
theorem snapshot_schema_complete :
    ∀ (m : Mem) (cache : Nat) (s : Stats), getCombatStats m cache = some s →
      ∀ k ∈ snapshotKeys, (statsGet s k).isSome = true := by
  intro m cache s _ k hk
  fin_cases hk <;> rfl

/-- Witness for claim C9 at okMem and the key combo_points. -/
theorem snapshot_schema_complete_witness :
    (statsGet okStats "combo_points").isSome = true :=
  snapshot_schema_complete okMem 0 okStats (by decide) "combo_points" (by decide)

/-- Claim C10: with a non-empty window registry, round-robin resolution in
_targets_for returns exactly one handle, and the macro-body round-robin
resolution dispatches to exactly one handle; when the registry holds no
non-main handles, the fallback list is the first element of the registry
and every handle in it is the main window. -/
theorem round_robin_nonempty_single :
    ∀ (hwnds : List Nat) (mainH : Option Nat) (rrd rri : Nat),
      hwnds ≠ [] →
      ((targetsFor hwnds mainH rrd [] "round_robin" []).1.length = 1
      ∧ (∃ l, (runMacroRRTarget hwnds mainH rrd rri).1 = some l ∧ l.length = 1)
      ∧ (hwnds.filter (fun h => some h ≠ mainH) = [] →
          rrArr hwnds mainH = hwnds.take 1
          ∧ ∀ x ∈ rrArr hwnds mainH, some x = mainH)) := by
  intro hwnds mainH rrd rri hh
  have harr : rrArr hwnds mainH ≠ [] := rrArr_ne_nil hwnds mainH hh
  refine ⟨?_, ?_, ?_⟩
  · rw [targetsFor_rr hwnds mainH rrd hh harr]
    rfl
  · rw [runMacroRR_eq hwnds mainH rrd rri hh harr]
    exact ⟨_, rfl, rfl⟩
  · intro hf
    have htake : rrArr hwnds mainH = hwnds.take 1 := by
      unfold rrArr
      rw [hf]
      rfl
    refine ⟨htake, ?_⟩
    intro x hx
    rw [htake] at hx
    have hxh : x ∈ hwnds := List.take_subset 1 hwnds hx
    have := List.filter_eq_nil_iff.mp hf x hxh
    simpa using this

/-- Witness for claim C10 on a registry holding only the main window 10:
resolution still yields exactly one handle and the fallback is the main
window itself. -/
theorem round_robin_nonempty_single_witness :
    (targetsFor [10] (some 10) 0 [] "round_robin" []).1.length = 1
    ∧ (rrArr [10] (some 10) = [10] ∧ ∀ x ∈ rrArr [10] (some 10), some x = some 10) :=
  ⟨(round_robin_nonempty_single [10] (some 10) 0 0 (by decide)).1,
   (round_robin_nonempty_single [10] (some 10) 0 0 (by decide)).2.2 (by decide)⟩

end BoxChamp
